import Mathlib

/-!
Shallow embedding of `ecommerce_integrations/shopify/order.py`.

Modelling conventions:
* Python floats and Shopify decimal strings are modelled as exact rationals (`ℚ`).
* A Python dictionary field read with `.get(key, default)` is modelled as an
  `Option ℚ` / `Option String` field together with `Option.getD`.
* `frappe.throw` raises an exception; it is modelled as `Except.error` with the
  message string, and a Python runtime error (ZeroDivisionError / TypeError)
  that a call can raise is likewise modelled as `Except.error`.
* Python truthiness of an optional string (`None` and `""` are falsy) is
  `truthyS`; `str(x)` on an optional string is `pyStr` (Python renders `None`
  as the string "None").
* `round(x, 2)` is modelled as exact rational rounding to 2 decimal places.
* Database / framework collaborators (`frappe.db.get_value`, catalog lookups,
  the holiday table, deployment settings) are passed in as explicit function
  parameters, as the specification directs.
-/

namespace ShopifyOrder

/-- Python truthiness of an optional string: `None` and `""` are falsy. -/
def truthyS : Option String → Bool
  | none => false
  | some s => s ≠ ""

/-- Python `str` applied to an optional string (`str(None) = "None"`). -/
def pyStr : Option String → String
  | none => "None"
  | some s => s

/-- frappe's `flt`: coerce an optional numeric value, `None ↦ 0`. -/
def flt (x : Option ℚ) : ℚ := x.getD 0

/-- Python `int()` truncation toward zero on a rational. -/
def pyInt (q : ℚ) : ℤ := if 0 ≤ q then Int.floor q else -(Int.floor (-q))

/-- frappe's `cint`: coerce an optional numeric value to an integer. -/
def cint (x : Option ℚ) : ℤ := pyInt (flt x)

/-- Python `round(x, 2)`: rounding to 2 decimal places, modelled exactly on ℚ. -/
def round2 (q : ℚ) : ℚ := (round (q * 100) : ℚ) / 100

/-- A Python value that is expected to be a dictionary of shape `α`:
either it is such a dictionary, or it is something else entirely. -/
inductive Py (α : Type) where
  | dict (d : α)
  | other
deriving DecidableEq

/-- A Python value that is expected to be a list of dictionaries of shape `α`. -/
inductive PyList (α : Type) where
  | list (xs : List (Py α))
  | notList
deriving DecidableEq

/-- The fields of a line-item dictionary read by `calculate_subtotal`
(`shopify_rate`, `qty`, `total_discount`). -/
structure LineItemDict where
  shopify_rate : Option ℚ
  qty : Option ℚ
  total_discount : Option ℚ
deriving DecidableEq

/-- The fields of a shipping-line dictionary read by `calculate_shipping_total`:
only `price`; the discount allocations are carried but never read. -/
structure ShippingDict where
  price : Option ℚ
  discount_allocations : List ℚ
deriving DecidableEq

/-- The fields of a tax-line dictionary read by `calculate_taxes`. -/
structure TaxDict where
  title : Option String
  rate : Option ℚ
deriving DecidableEq

/-- One iteration of the loop body of `calculate_subtotal` (order.py 573-584). -/
def subtotalStep (acc : ℚ) (item : Py LineItemDict) : Except String ℚ :=
  match item with
  | .other => .error "Invalid data: Each line item must be a dictionary."
  | .dict d =>
    let price := flt (some (d.shopify_rate.getD 2))
    let quantity := flt (some (d.qty.getD 2))
    let total_discount := flt (some (d.total_discount.getD 0))
    if price < 0 ∨ quantity < 0 ∨ total_discount < 0 then
      .error "Invalid data: Price, quantity, and discount must be non-negative."
    else
      .ok (acc + (price * quantity - total_discount))

/-- `calculate_subtotal` (order.py 560-586). -/
def calculate_subtotal (line_items : PyList LineItemDict) : Except String ℚ :=
  match line_items with
  | .notList => .error "Invalid data: 'line_items' should be a list."
  | .list items => do
    let subtotal ← items.foldlM subtotalStep 0
    .ok (round2 subtotal)

/-- One iteration of the loop body of `calculate_shipping_total` (order.py 601-610). -/
def shippingStep (acc : ℚ) (item : Py ShippingDict) : Except String ℚ :=
  match item with
  | .other => .error "Invalid data: Each shipping line must be a dictionary."
  | .dict d =>
    let price := d.price.getD 0
    if price < 0 then
      .error "Invalid data: Shipping price cannot be negative."
    else
      .ok (acc + price)

/-- `calculate_shipping_total` (order.py 589-612). -/
def calculate_shipping_total (shipping_lines : PyList ShippingDict) : Except String ℚ :=
  match shipping_lines with
  | .notList => .error "Invalid data: 'shipping_lines' should be a list."
  | .list lines => do
    let total ← lines.foldlM shippingStep 0
    .ok (round2 total)

/-- The result dictionary of `calculate_taxes`, keyed by `tax.get("title")`
(a Python dict: a partial map with overwriting assignment). -/
def TaxMap : Type := Option String → Option ℚ

/-- `out[k] = v` on a Python dictionary. -/
def dictInsert (m : TaxMap) (k : Option String) (v : ℚ) : TaxMap :=
  fun k' => if k' = k then some v else m k'

/-- The empty Python dictionary `dict()`. -/
def emptyTaxMap : TaxMap := fun _ => none

/-- One iteration of the loop body of `calculate_taxes` (order.py 645-659). -/
def taxStep (total_amount : ℚ) (out : TaxMap) (t : Py TaxDict) : Except String TaxMap :=
  match t with
  | .other => .error "Invalid data: Each tax line must be a dictionary."
  | .dict d =>
    let rate := d.rate.getD 0
    if rate < 0 then
      .error "Invalid data: Tax rate cannot be negative."
    else
      .ok (dictInsert out d.title (total_amount * rate))

/-- `calculate_taxes` (order.py 615-661). -/
def calculate_taxes (line_items : PyList LineItemDict) (shipping_lines : PyList ShippingDict)
    (tax_lines : PyList TaxDict) : Except String TaxMap :=
  match tax_lines with
  | .notList => .error "Invalid data: 'tax_lines' should be a list."
  | .list taxes => do
    let subtotal ← calculate_subtotal line_items
    let shipping_total ← calculate_shipping_total shipping_lines
    let total_amount := subtotal + shipping_total
    if total_amount < 0 then
      .error "Invalid data: Order total cannot be negative."
    else
      taxes.foldlM (taxStep total_amount) emptyTaxMap

/-- The `charge_type` literal argument of `get_tax_account_head`. -/
inductive ChargeType where
  | sales_tax
  | shipping
deriving DecidableEq

/-- A tax line as read by `get_tax_account_head` (only `title` is consulted). -/
structure Tax where
  title : Option String
deriving DecidableEq

/-- A shipping address as read by `get_tax_account_head`
(only `province_code` is consulted).  A present-but-falsy value
(`""`) is `some ""`. -/
structure Address where
  province_code : Option String
deriving DecidableEq

/-- A Shopify order as read by `get_tax_account_head`: `none` for
`shipping_address` models both a missing key and a falsy value. -/
structure ShopOrder where
  shipping_address : Option Address
deriving DecidableEq

/-- The deployment configuration consulted by `get_tax_account_head`:
the "Shopify Tax Account" child-table mapping from tax title to account,
and the two `DEFAULT_TAX_FIELDS` single values on the settings doctype
(order.py 22-25, 470-475).  `none` models an absent row / empty field. -/
structure TaxConfig where
  tax_account_for : String → Option String
  default_sales_tax_account : Option String
  default_shipping_charges_account : Option String

/-- `DEFAULT_TAX_FIELDS[charge_type]` read off the settings (order.py 474-475). -/
def TaxConfig.defaultFor (cfg : TaxConfig) : ChargeType → Option String
  | .sales_tax => cfg.default_sales_tax_account
  | .shipping => cfg.default_shipping_charges_account

/-- A deployment with nothing configured. -/
def emptyTaxConfig : TaxConfig :=
  { tax_account_for := fun _ => none
    default_sales_tax_account := none
    default_shipping_charges_account := none }

/-- The configuration fall-through chain at the end of `get_tax_account_head`
(order.py 470-483): child-table mapping, then the default account keyed by
`charge_type` when `charge_type` is truthy, then the hard-coded default,
then `frappe.throw` when still falsy. -/
def resolve_tax_account (cfg : TaxConfig) (tax_title : String)
    (charge_type : Option ChargeType) : Except String String :=
  let tax_account := cfg.tax_account_for tax_title
  let tax_account :=
    if ¬ truthyS tax_account then
      match charge_type with
      | some ct => cfg.defaultFor ct
      | none => tax_account
    else tax_account
  let tax_account :=
    if ¬ truthyS tax_account then some "2310 - State Taxes WA - SV" else tax_account
  if ¬ truthyS tax_account then
    .error ("Tax Account not specified for Shopify Tax " ++ tax_title)
  else
    .ok (tax_account.getD "")

/-- `get_tax_account_head` (order.py 436-483).  The region block runs first
for `charge_type == "sales_tax"`: with an order and a truthy shipping
address it returns a region account; with an order whose shipping address
is falsy it falls through to the configuration chain; with no order it
returns the "other states" account. -/
def get_tax_account_head (cfg : TaxConfig) (tax : Tax)
    (charge_type : Option ChargeType) (shopify_order : Option ShopOrder) :
    Except String String :=
  let tax_title := pyStr tax.title
  if charge_type = some ChargeType.sales_tax then
    match shopify_order with
    | some order =>
      match order.shipping_address with
      | some shipping_address =>
        if truthyS shipping_address.province_code then
          let state := pyStr shipping_address.province_code
          if state = "WA" then
            if tax.title = some "Washington State Tax" then
              .ok "2310 - State Taxes WA - SV"
            else
              .ok "2320 - Local Taxes WA - SV"
          else if state = "FL" then
            if tax.title = some "Florida State Tax" then
              .ok "2330 - State Taxes FL - SV"
            else
              .ok "2340 - Local Taxes FL - SV"
          else
            .ok "2350 - Other States - SV"
        else
          .ok "2350 - Other States - SV"
      | none => resolve_tax_account cfg tax_title charge_type
    | none => .ok "2350 - Other States - SV"
  else
    resolve_tax_account cfg tax_title charge_type

/-- Auxiliary recursion for Python `s.split(sep)` with a one-character
separator: walk the characters, cutting at each separator occurrence. -/
def pySplitAux (sep : Char) : List Char → List Char → List String
  | [], acc => [String.mk acc.reverse]
  | c :: cs, acc =>
    if c = sep then String.mk acc.reverse :: pySplitAux sep cs []
    else pySplitAux sep cs (c :: acc)

/-- Python `s.split(sep)` for a one-character separator
(`"A+B".split("+") = ["A", "B"]`, `"A".split("+") = ["A"]`). -/
def pySplit (sep : Char) (s : String) : List String := pySplitAux sep s.toList []

/-- Python `s.strip()`: remove leading and trailing whitespace. -/
def pyStrip (s : String) : String :=
  String.mk (((s.toList.dropWhile Char.isWhitespace).reverse.dropWhile
    Char.isWhitespace).reverse)

/-- A Shopify order line item as it flows through `create_sales_order`'s
bundle-splitting loop (order.py 87-119) and `get_order_items` (203-268).
`discount_allocations` carries each allocation's `amount` field and
`tax_lines` carries each tax line's `price` field, the only keys read. -/
structure ShopifyItem where
  sku : String
  price : Option ℚ
  item_name : Option String
  product_exists : Bool
  shopify_price : Option ℚ
  quantity : Option ℚ
  discount_allocations : List (Option ℚ)
  tax_lines : List (Option ℚ)
deriving DecidableEq

/-- `_get_total_discount` (order.py 314-316). -/
def get_total_discount (line_item : ShopifyItem) : ℚ :=
  (line_item.discount_allocations.map flt).sum

/-- The inner loop of the bundle-splitting step of `create_sales_order`
(order.py 92-119).  `line_item = line_item.copy()` copies the *carried*
dictionary, which after the first iteration is the updated copy of the
previous one; in particular `"shopify_price": float(line_item.get("price", 0))`
reads the price written by the previous iteration.
`get_price_std` models the `get_price(sku, "Standard Selling", ...)`
collaborator (`none` when no price record is found) and `dbExists` models
`frappe.db.exists("Item", {"item_code": sku})`. -/
def splitGo (get_price_std : String → Option ℚ) (dbExists : String → Bool)
    (whole_sku : String) (isBundle : Bool) :
    List String → ShopifyItem → List ShopifyItem
  | [], _ => []
  | sku :: rest, carried =>
    let sku := pyStrip sku
    let product_exists := dbExists sku
    let item_price : ℚ :=
      if isBundle then (get_price_std sku).getD 0
      else carried.price.getD 0
    let updated : ShopifyItem :=
      { carried with
        sku := sku
        product_exists := product_exists
        item_name :=
          if isBundle then some ("Product Bundle > " ++ whole_sku)
          else carried.item_name
        price := some item_price
        shopify_price := some (carried.price.getD 0) }
    updated :: splitGo get_price_std dbExists whole_sku isBundle rest updated

/-- The bundle-splitting step applied to one payload line item
(order.py 87-119): split the sku on `"+"` and synthesize one sub-item
per component. -/
def splitLineItem (get_price_std : String → Option ℚ) (dbExists : String → Bool)
    (line_item : ShopifyItem) : List ShopifyItem :=
  let whole_sku := line_item.sku
  let sku_list := pySplit '+' whole_sku
  splitGo get_price_std dbExists whole_sku (1 < sku_list.length) sku_list line_item

/-- The nested `get_rate` function of `get_order_items` (order.py 223-234):
`price - (total_taxes + total_discount) / qty`, where `qty` and `price` are
raw `.get` reads (a missing key is a Python `TypeError`, a zero quantity a
`ZeroDivisionError`). -/
def get_rate (shopify_item : ShopifyItem) : Except String ℚ :=
  match shopify_item.quantity, shopify_item.shopify_price with
  | some qty, some price =>
    let total_discount := get_total_discount shopify_item
    let total_taxes := (shopify_item.tax_lines.map flt).sum
    if qty = 0 then .error "ZeroDivisionError: division by zero"
    else .ok (price - (total_taxes + total_discount) / qty)
  | _, _ => .error "TypeError: unsupported operand type for None"

/-- The ERP item dictionary appended by `get_order_items` (order.py 246-264).
Externally supplied presentation fields (`delivery_date`, `stock_uom`,
`warehouse`) are elided: they are copied from configuration collaborators
and never computed. -/
structure ErpItem where
  item_code : String
  item_name : String
  description : String
  price_list_rate : Option ℚ
  rate : Option ℚ
  shopify_rate : Option ℚ
  qty : Option ℚ
  discount : ℚ
deriving DecidableEq

/-- Building one ERP item inside `get_order_items` (order.py 217-264):
the price is `get_rate()` when the item has discount allocations and the
raw `price` field otherwise, and the per-unit discount field divides the
total discount by `cint(quantity)` with no guard.
`catalog` models `frappe.get_doc("Item", item_code)` giving
`(item_name, description)`. -/
def buildErpItem (catalog : String → Option String × String)
    (item_code : String) (shopify_item : ShopifyItem) : Except String ErpItem := do
  let (item_name, description) := catalog item_code
  let price : Option ℚ ←
    if shopify_item.discount_allocations ≠ [] then do
      let r ← get_rate shopify_item
      pure (some r)
    else
      pure shopify_item.price
  let qtyInt : ℤ := cint shopify_item.quantity
  let discount : ℚ ←
    if qtyInt = 0 then .error "ZeroDivisionError: division by zero"
    else pure (get_total_discount shopify_item / (qtyInt : ℚ))
  pure
    { item_code := item_code
      item_name := if truthyS item_name then item_name.getD "" else item_code
      description := description
      price_list_rate := price
      rate := price
      shopify_rate := shopify_item.shopify_price
      qty := shopify_item.quantity
      discount := discount }

/-- The loop of `get_order_items` (order.py 203-268): a missing product
clears the `all_product_exists` flag and skips the item; an existing
product is appended while the flag holds, and resets the accumulated list
to `[]` once the flag has been cleared. -/
def get_order_items_go (item_code_of : ShopifyItem → String)
    (catalog : String → Option String × String) :
    List ShopifyItem → Bool → List ErpItem → Except String (List ErpItem)
  | [], _, items => .ok items
  | shopify_item :: rest, all_product_exists, items =>
    if ¬ shopify_item.product_exists then
      get_order_items_go item_code_of catalog rest false items
    else if all_product_exists then
      (buildErpItem catalog (item_code_of shopify_item) shopify_item).bind
        fun e => get_order_items_go item_code_of catalog rest true (items ++ [e])
    else
      get_order_items_go item_code_of catalog rest false []

/-- `get_order_items` (order.py 203-268).  `item_code_of` models the
`get_item_code` collaborator from the product module. -/
def get_order_items (item_code_of : ShopifyItem → String)
    (catalog : String → Option String × String) (order_items : List ShopifyItem) :
    Except String (List ErpItem) :=
  get_order_items_go item_code_of catalog order_items true []

/-- `_get_item_price` (order.py 296-311): per-unit discount (and tax, when
prices are tax inclusive) is subtracted from the price, dividing by
`cint(quantity)` with no guard. -/
def get_item_price (line_item : ShopifyItem) (taxes_inclusive : Bool) :
    Except String ℚ :=
  let price := flt line_item.price
  let qty : ℤ := cint line_item.quantity
  let total_discount := get_total_discount line_item
  if ¬ taxes_inclusive then
    if qty = 0 then .error "ZeroDivisionError: division by zero"
    else .ok (price - total_discount / (qty : ℚ))
  else
    let total_taxes := (line_item.tax_lines.map flt).sum
    if qty = 0 then .error "ZeroDivisionError: division by zero"
    else .ok (price - (total_taxes + total_discount) / (qty : ℚ))

/-- `is_more_than_14` (order.py 271-273): `now.strftime("%H") >= "14"`
compares zero-padded two-digit hour strings, which on hours 0-23 is the
numeric comparison `14 ≤ hour`. -/
def is_more_than_14 (hour : Nat) : Bool := 14 ≤ hour

/-- The base date used by `get_next_working_day` (order.py 280-282): advanced
by one day exactly when the hour is at least 14 and `dont_change_date` is
false. -/
def baseDate (hour : Nat) (dont_change_date : Bool) (date : Int) : Int :=
  if is_more_than_14 hour && !dont_change_date then date + 1 else date

/-- `get_next_working_day` (order.py 276-293).  Dates are day numbers; the
`frappe.db.exists("Holiday", ...)` collaborator is the predicate `holiday`;
`hour` is the current hour read by `is_more_than_14`.  The recursion in the
source terminates only when the holiday calendar has finitely many
consecutive holidays; `fuel` bounds the recursion depth and the function
returns `none` when the bound is exhausted. -/
def get_next_working_day (holiday : Int → Bool) (hour : Nat) :
    Nat → Int → Bool → Option Int
  | 0, date, dont_change_date =>
    let d := baseDate hour dont_change_date date
    if holiday d then none else some d
  | fuel + 1, date, dont_change_date =>
    let d := baseDate hour dont_change_date date
    if holiday d then get_next_working_day holiday hour fuel (d + 1) true
    else some d

/-- The contribution of one well-typed line-item dictionary to the running
subtotal, as computed by `subtotalStep`. -/
def subtotalContrib (d : LineItemDict) : ℚ :=
  d.shopify_rate.getD 2 * d.qty.getD 2 - d.total_discount.getD 0

end ShopifyOrder

namespace ShopifyOrder

/-! ### Generic lemmas about effectful list folds -/

theorem foldlM_ok_of_all {σ α : Type} (f : σ → α → Except String σ) (g : σ → α → σ)
    (l : List α) :
    (∀ s a, a ∈ l → f s a = .ok (g s a)) →
    ∀ s : σ, List.foldlM f s l = .ok (l.foldl g s) := by
  induction l with
  | nil => intro _ s; rfl
  | cons a t ih =>
    intro h s
    have step : List.foldlM f s (a :: t) = List.foldlM f (g s a) t := by
      show f s a >>= (fun s' => List.foldlM f s' t) = _
      rw [h s a (List.mem_cons_self a t)]
      rfl
    rw [step, ih (fun s' a' h' => h s' a' (List.mem_cons_of_mem a h')) (g s a)]
    rfl

theorem foldlM_error_of_elem {σ α : Type} (f : σ → α → Except String σ) (x : α)
    (hx : ∀ s, ∃ e, f s x = .error e) (pre : List α) :
    ∀ (post : List α) (s : σ), ∃ e, List.foldlM f s (pre ++ x :: post) = .error e := by
  induction pre with
  | nil =>
    intro post s
    obtain ⟨e, he⟩ := hx s
    exact ⟨e, by show f s x >>= _ = _; rw [he]; rfl⟩
  | cons a t ih =>
    intro post s
    show ∃ e, f s a >>= (fun s' => List.foldlM f s' (t ++ x :: post)) = .error e
    cases hfa : f s a with
    | error e => exact ⟨e, rfl⟩
    | ok s' =>
      obtain ⟨e, he⟩ := ih post s'
      exact ⟨e, he⟩

theorem foldlM_congr_elem {σ α : Type} (f : σ → α → Except String σ) (x y : α)
    (hxy : ∀ s, f s x = f s y) (pre : List α) :
    ∀ (post : List α) (s : σ),
      List.foldlM f s (pre ++ x :: post) = List.foldlM f s (pre ++ y :: post) := by
  induction pre with
  | nil =>
    intro post s
    show f s x >>= _ = f s y >>= _
    rw [hxy s]
  | cons a t ih =>
    intro post s
    show f s a >>= (fun s' => List.foldlM f s' (t ++ x :: post)) =
      f s a >>= (fun s' => List.foldlM f s' (t ++ y :: post))
    cases hfa : f s a with
    | error e => rfl
    | ok s' => exact ih post s'

theorem foldl_add_map {α : Type} (g : α → ℚ) (l : List α) :
    ∀ acc : ℚ, l.foldl (fun s a => s + g a) acc = acc + (l.map g).sum := by
  induction l with
  | nil => intro acc; simp
  | cons a t ih =>
    intro acc
    rw [List.foldl_cons, ih, List.map_cons, List.sum_cons]
    ring

/-! ### C4, C9, C10: the subtotal and shipping calculators -/

theorem subtotalStep_ok_of_wf (d : LineItemDict)
    (h : ¬ (d.shopify_rate.getD 2 < 0 ∨ d.qty.getD 2 < 0 ∨ d.total_discount.getD 0 < 0))
    (s : ℚ) : subtotalStep s (.dict d) = .ok (s + subtotalContrib d) := by
  simp only [subtotalStep, subtotalContrib, flt, Option.getD_some]
  rw [if_neg h]

theorem subtotalStep_err_of_neg (d : LineItemDict)
    (h : d.shopify_rate.getD 2 < 0 ∨ d.qty.getD 2 < 0 ∨ d.total_discount.getD 0 < 0)
    (s : ℚ) :
    subtotalStep s (.dict d) =
      .error "Invalid data: Price, quantity, and discount must be non-negative." := by
  simp only [subtotalStep, flt, Option.getD_some]
  rw [if_pos h]

/-- C4: for well-formed line items (all fields present and non-negative) the
subtotal is the rounded arithmetic sum of price×qty − discount; a non-list
argument, a non-dictionary element, or a negative price, quantity or
discount always produces an InvalidInput error. -/
theorem calculate_subtotal_spec :
    (∀ items : List LineItemDict,
      (∀ d ∈ items, ∃ p q c, d = ⟨some p, some q, some c⟩ ∧ 0 ≤ p ∧ 0 ≤ q ∧ 0 ≤ c) →
      calculate_subtotal (.list (items.map .dict)) =
        .ok (round2 ((items.map
          fun d => flt d.shopify_rate * flt d.qty - flt d.total_discount).sum)))
    ∧ (∃ e, calculate_subtotal .notList = .error e)
    ∧ (∀ pre post, ∃ e,
        calculate_subtotal (.list (pre ++ .other :: post)) = .error e)
    ∧ (∀ pre post (d : LineItemDict) p, d.shopify_rate = some p → p < 0 →
        ∃ e, calculate_subtotal (.list (pre ++ .dict d :: post)) = .error e)
    ∧ (∀ pre post (d : LineItemDict) q, d.qty = some q → q < 0 →
        ∃ e, calculate_subtotal (.list (pre ++ .dict d :: post)) = .error e)
    ∧ (∀ pre post (d : LineItemDict) c, d.total_discount = some c → c < 0 →
        ∃ e, calculate_subtotal (.list (pre ++ .dict d :: post)) = .error e) := by
  have herr : ∀ (x : Py LineItemDict), (∀ s : ℚ, ∃ e, subtotalStep s x = .error e) →
      ∀ pre post, ∃ e, calculate_subtotal (.list (pre ++ x :: post)) = .error e := by
    intro x hx pre post
    obtain ⟨e, he⟩ := foldlM_error_of_elem subtotalStep x hx pre post 0
    refine ⟨e, ?_⟩
    simp only [calculate_subtotal]
    rw [he]
    rfl
  refine ⟨?_, ⟨_, rfl⟩, ?_, ?_, ?_, ?_⟩
  · intro items hwf
    have hok : ∀ (s : ℚ) (a : Py LineItemDict), a ∈ items.map .dict →
        subtotalStep s a = .ok ((fun s (a : Py LineItemDict) =>
          match a with | .dict d => s + subtotalContrib d | .other => s) s a) := by
      intro s a ha
      obtain ⟨d, hd, rfl⟩ := List.mem_map.mp ha
      obtain ⟨p, q, c, rfl, hp, hq, hc⟩ := hwf d hd
      refine subtotalStep_ok_of_wf _ ?_ s
      simp only [Option.getD_some]
      push_neg
      exact ⟨hp, hq, hc⟩
    simp only [calculate_subtotal]
    rw [foldlM_ok_of_all _ _ _ hok 0]
    have : (items.map Py.dict).foldl (fun s (a : Py LineItemDict) =>
        match a with | .dict d => s + subtotalContrib d | .other => s) 0 =
        items.foldl (fun s d => s + subtotalContrib d) 0 := by
      rw [List.foldl_map]
    rw [this, foldl_add_map, zero_add]
    have hmap : items.map subtotalContrib =
        items.map fun d => flt d.shopify_rate * flt d.qty - flt d.total_discount := by
      refine List.map_congr_left ?_
      intro d hd
      obtain ⟨p, q, c, rfl, _, _, _⟩ := hwf d hd
      simp [subtotalContrib, flt]
    rw [hmap]
    rfl
  · intro pre post
    exact herr .other (fun s => ⟨_, rfl⟩) pre post
  · intro pre post d p hdp hp
    exact herr (.dict d)
      (fun s => ⟨_, subtotalStep_err_of_neg d (Or.inl (by rw [hdp]; simpa using hp)) s⟩)
      pre post
  · intro pre post d q hdq hq
    exact herr (.dict d)
      (fun s => ⟨_, subtotalStep_err_of_neg d
        (Or.inr (Or.inl (by rw [hdq]; simpa using hq))) s⟩) pre post
  · intro pre post d c hdc hc
    exact herr (.dict d)
      (fun s => ⟨_, subtotalStep_err_of_neg d
        (Or.inr (Or.inr (by rw [hdc]; simpa using hc))) s⟩) pre post

/-- Witness for C4 at a concrete order: one line item with price 100,
quantity 2 and discount 10 gives subtotal 190, and a negative price fails. -/
theorem calculate_subtotal_spec_witness :
    calculate_subtotal (.list ([(⟨some 100, some 2, some 10⟩ : LineItemDict)].map .dict)) =
      .ok (round2 (([(⟨some 100, some 2, some 10⟩ : LineItemDict)].map
        fun d => flt d.shopify_rate * flt d.qty - flt d.total_discount).sum)) ∧
    (∃ e, calculate_subtotal
      (.list ([] ++ .dict (⟨some (-1), some 1, some 0⟩ : LineItemDict) :: [])) = .error e) :=
  ⟨calculate_subtotal_spec.1 [⟨some 100, some 2, some 10⟩] (by
      intro d hd
      simp at hd
      exact ⟨100, 2, 10, by simp [hd], by norm_num, by norm_num, by norm_num⟩),
   calculate_subtotal_spec.2.2.2.1 [] [] ⟨some (-1), some 1, some 0⟩ (-1) rfl (by norm_num)⟩

theorem shippingStep_ok_of_nonneg (d : ShippingDict) (h : ¬ d.price.getD 0 < 0)
    (s : ℚ) : shippingStep s (.dict d) = .ok (s + d.price.getD 0) := by
  simp only [shippingStep]
  rw [if_neg h]

theorem shippingStep_err_of_neg (d : ShippingDict) (h : d.price.getD 0 < 0)
    (s : ℚ) :
    shippingStep s (.dict d) = .error "Invalid data: Shipping price cannot be negative." := by
  simp only [shippingStep]
  rw [if_pos h]

theorem shipping_fold_depends_only_on_prices :
    ∀ (l₁ l₂ : List ShippingDict), l₁.map (·.price) = l₂.map (·.price) →
    ∀ s : ℚ, List.foldlM shippingStep s (l₁.map .dict) =
      List.foldlM shippingStep s (l₂.map .dict) := by
  intro l₁
  induction l₁ with
  | nil =>
    intro l₂ h s
    cases l₂ with
    | nil => rfl
    | cons b t₂ => simp at h
  | cons a t ih =>
    intro l₂ h s
    cases l₂ with
    | nil => simp at h
    | cons b t₂ =>
      simp only [List.map_cons, List.cons.injEq] at h
      obtain ⟨hab, ht⟩ := h
      show shippingStep s (.dict a) >>= _ = shippingStep s (.dict b) >>= _
      have hstep : shippingStep s (.dict a) = shippingStep s (.dict b) := by
        simp only [shippingStep, hab]
      rw [hstep]
      cases shippingStep s (.dict b) with
      | error e => rfl
      | ok s' => exact ih t₂ ht s'

/-- C9: for well-formed shipping lines with non-negative prices the total is
the rounded sum of the prices; the result depends only on the prices, so
shipping discount allocations are never subtracted; a non-list argument, a
non-dictionary element, or a negative price always produces an InvalidInput
error. -/
theorem calculate_shipping_total_spec :
    (∀ lines : List ShippingDict,
      (∀ d ∈ lines, 0 ≤ d.price.getD 0) →
      calculate_shipping_total (.list (lines.map .dict)) =
        .ok (round2 ((lines.map fun d => d.price.getD 0).sum)))
    ∧ (∀ l₁ l₂ : List ShippingDict, l₁.map (·.price) = l₂.map (·.price) →
      calculate_shipping_total (.list (l₁.map .dict)) =
        calculate_shipping_total (.list (l₂.map .dict)))
    ∧ (∃ e, calculate_shipping_total .notList = .error e)
    ∧ (∀ pre post, ∃ e,
        calculate_shipping_total (.list (pre ++ .other :: post)) = .error e)
    ∧ (∀ pre post (d : ShippingDict) p, d.price = some p → p < 0 →
        ∃ e, calculate_shipping_total (.list (pre ++ .dict d :: post)) = .error e) := by
  have herr : ∀ (x : Py ShippingDict), (∀ s : ℚ, ∃ e, shippingStep s x = .error e) →
      ∀ pre post, ∃ e, calculate_shipping_total (.list (pre ++ x :: post)) = .error e := by
    intro x hx pre post
    obtain ⟨e, he⟩ := foldlM_error_of_elem shippingStep x hx pre post 0
    refine ⟨e, ?_⟩
    simp only [calculate_shipping_total]
    rw [he]
    rfl
  refine ⟨?_, ?_, ⟨_, rfl⟩, ?_, ?_⟩
  · intro lines hnn
    have hok : ∀ (s : ℚ) (a : Py ShippingDict), a ∈ lines.map .dict →
        shippingStep s a = .ok ((fun s (a : Py ShippingDict) =>
          match a with | .dict d => s + d.price.getD 0 | .other => s) s a) := by
      intro s a ha
      obtain ⟨d, hd, rfl⟩ := List.mem_map.mp ha
      exact shippingStep_ok_of_nonneg d (not_lt.mpr (hnn d hd)) s
    simp only [calculate_shipping_total]
    rw [foldlM_ok_of_all _ _ _ hok 0]
    have : (lines.map Py.dict).foldl (fun s (a : Py ShippingDict) =>
        match a with | .dict d => s + d.price.getD 0 | .other => s) 0 =
        lines.foldl (fun s d => s + d.price.getD 0) 0 := by
      rw [List.foldl_map]
    rw [this, foldl_add_map, zero_add]
    rfl
  · intro l₁ l₂ h
    simp only [calculate_shipping_total]
    rw [shipping_fold_depends_only_on_prices l₁ l₂ h 0]
  · intro pre post
    exact herr .other (fun s => ⟨_, rfl⟩) pre post
  · intro pre post d p hdp hp
    exact herr (.dict d)
      (fun s => ⟨_, shippingStep_err_of_neg d (by rw [hdp]; simpa using hp) s⟩) pre post

/-- Witness for C9: shipping lines with prices 15 and 5 total 20
regardless of their discount allocations, and a negative price fails. -/
theorem calculate_shipping_total_spec_witness :
    calculate_shipping_total
      (.list (([⟨some 15, [3]⟩, ⟨some 5, []⟩] : List ShippingDict).map .dict)) =
      .ok (round2 ((([⟨some 15, [3]⟩, ⟨some 5, []⟩] : List ShippingDict).map
        fun d => d.price.getD 0).sum)) ∧
    calculate_shipping_total
      (.list (([⟨some 15, [3]⟩] : List ShippingDict).map .dict)) =
      calculate_shipping_total (.list (([⟨some 15, []⟩] : List ShippingDict).map .dict)) ∧
    (∃ e, calculate_shipping_total
      (.list ([] ++ .dict (⟨some (-2), []⟩ : ShippingDict) :: [])) = .error e) :=
  ⟨calculate_shipping_total_spec.1 [⟨some 15, [3]⟩, ⟨some 5, []⟩] (by decide),
   calculate_shipping_total_spec.2.1 [⟨some 15, [3]⟩] [⟨some 15, []⟩] rfl,
   calculate_shipping_total_spec.2.2.2.2 [] [] ⟨some (-2), []⟩ (-2) rfl (by norm_num)⟩

/-- C10: a dictionary line item missing the `shopify_rate` or `qty` key gets
the default value 2 for each, and 0 for a missing `total_discount`: anywhere
in the list it behaves exactly like the explicit item ⟨2, 2, 0⟩, and an
order consisting of one empty dictionary has subtotal 2 × 2 = 4, with no
error raised. -/
theorem calculate_subtotal_default_two :
    (∀ pre post : List (Py LineItemDict),
      calculate_subtotal (.list (pre ++ .dict ⟨none, none, none⟩ :: post)) =
        calculate_subtotal (.list (pre ++ .dict ⟨some 2, some 2, some 0⟩ :: post)))
    ∧ calculate_subtotal (.list [.dict ⟨none, none, none⟩]) = .ok 4 := by
  constructor
  · intro pre post
    have hxy : ∀ s : ℚ, subtotalStep s (.dict ⟨none, none, none⟩) =
        subtotalStep s (.dict ⟨some 2, some 2, some 0⟩) := fun s => rfl
    simp only [calculate_subtotal]
    rw [foldlM_congr_elem subtotalStep _ _ hxy pre post 0]
  · norm_num [calculate_subtotal, subtotalStep, round2, flt, List.foldlM,
      Bind.bind, Except.bind, Pure.pure, Except.pure]

/-! ### C1: `calculate_taxes` -/

theorem ok_bind {α β : Type} (a : α) (f : α → Except String β) :
    (Except.ok a >>= f : Except String β) = f a := rfl

theorem taxFold_lookup (c : ℚ) (taxes : List TaxDict) :
    ∀ (m : TaxMap) (k : Option String),
    (taxes.foldl (fun out d => dictInsert out d.title (c * d.rate.getD 0)) m) k =
      ((taxes.reverse.find? fun d => decide (d.title = k)).map
        fun d => c * d.rate.getD 0).or (m k) := by
  induction taxes with
  | nil => intro m k; rfl
  | cons t rest ih =>
    intro m k
    rw [List.foldl_cons, ih, List.reverse_cons, List.find?_append]
    cases hf : rest.reverse.find? fun d => decide (d.title = k) with
    | some d => rfl
    | none =>
      by_cases hk : t.title = k
      · rw [List.find?_cons_of_pos _ (by simpa using hk)]
        simp [dictInsert, hk]
      · rw [List.find?_cons_of_neg _ (by simpa using hk)]
        have hk' : ¬ (k = t.title) := fun h => hk h.symm
        simp [dictInsert, hk']

/-- C1: with well-formed inputs (subtotal and shipping total computed
successfully, non-negative tax rates, non-negative order total),
`calculate_taxes` succeeds and the result maps a title to
(subtotal + shipping total) × rate of the *last* tax line carrying that
title — so duplicate titles overwrite rather than accumulate — and every
tax line's title, including those with rate 0, appears in the mapping. -/
theorem calculate_taxes_spec (li : PyList LineItemDict) (sl : PyList ShippingDict)
    (taxes : List TaxDict) (s sh : ℚ)
    (hs : calculate_subtotal li = .ok s)
    (hsh : calculate_shipping_total sl = .ok sh)
    (hrate : ∀ t ∈ taxes, 0 ≤ t.rate.getD 0)
    (htot : 0 ≤ s + sh) :
    ∃ m : TaxMap, calculate_taxes li sl (.list (taxes.map .dict)) = .ok m ∧
      (∀ k : Option String, m k =
        (taxes.reverse.find? fun t => decide (t.title = k)).map
          fun t => (s + sh) * t.rate.getD 0) ∧
      ∀ t ∈ taxes, ∃ v, m t.title = some v := by
  have hlk : ∀ k : Option String,
      (taxes.foldl (fun out d => dictInsert out d.title ((s + sh) * d.rate.getD 0))
        emptyTaxMap) k =
      (taxes.reverse.find? fun t => decide (t.title = k)).map
        fun t => (s + sh) * t.rate.getD 0 := by
    intro k
    rw [taxFold_lookup (s + sh) taxes emptyTaxMap k]
    show _ = (taxes.reverse.find? fun t => decide (t.title = k)).map
      fun t => (s + sh) * t.rate.getD 0
    cases taxes.reverse.find? fun t => decide (t.title = k) <;> rfl
  refine ⟨taxes.foldl (fun out d => dictInsert out d.title ((s + sh) * d.rate.getD 0))
    emptyTaxMap, ?_, hlk, ?_⟩
  · simp only [calculate_taxes, hs, hsh, ok_bind]
    rw [if_neg (not_lt.mpr htot)]
    have hok : ∀ (out : TaxMap) (a : Py TaxDict), a ∈ taxes.map .dict →
        taxStep (s + sh) out a = .ok ((fun out (a : Py TaxDict) =>
          match a with
          | .dict d => dictInsert out d.title ((s + sh) * d.rate.getD 0)
          | .other => out) out a) := by
      intro out a ha
      obtain ⟨d, hd, rfl⟩ := List.mem_map.mp ha
      simp only [taxStep]
      rw [if_neg (not_lt.mpr (hrate d hd))]
    rw [foldlM_ok_of_all _ _ _ hok emptyTaxMap, List.foldl_map]
  · intro t ht
    have hp : (fun t' : TaxDict => decide (t'.title = t.title)) t = true := by simp
    have hmem : t ∈ taxes.reverse := List.mem_reverse.mpr ht
    have : (taxes.reverse.find? fun t' => decide (t'.title = t.title)).isSome :=
      List.find?_isSome.mpr ⟨t, hmem, hp⟩
    obtain ⟨d, hd⟩ := Option.isSome_iff_exists.mp this
    exact ⟨(s + sh) * d.rate.getD 0, by rw [hlk t.title, hd]; rfl⟩

/-- Witness for C1: the spec's end-to-end scenario — one line item
(price 100, qty 2, discount 10), one shipping line (price 15), one tax
line "T" with rate 0.08: the mapping sends "T" to 205 × 0.08 = 16.40. -/
theorem calculate_taxes_spec_witness :
    ∃ m : TaxMap,
      calculate_taxes (.list [.dict ⟨some 100, some 2, some 10⟩])
        (.list [.dict ⟨some 15, []⟩])
        (.list (([⟨some "T", some (2/25)⟩] : List TaxDict).map .dict)) = .ok m ∧
      (∀ k : Option String, m k =
        (([⟨some "T", some (2/25)⟩] : List TaxDict).reverse.find?
          fun t => decide (t.title = k)).map
            fun t => ((190 : ℚ) + 15) * t.rate.getD 0) ∧
      ∀ t ∈ ([⟨some "T", some (2/25)⟩] : List TaxDict), ∃ v, m t.title = some v :=
  calculate_taxes_spec (.list [.dict ⟨some 100, some 2, some 10⟩])
    (.list [.dict ⟨some 15, []⟩]) [⟨some "T", some (2/25)⟩] 190 15
    (by norm_num [calculate_subtotal, subtotalStep, round2, flt, List.foldlM,
      Bind.bind, Except.bind, Pure.pure, Except.pure])
    (by norm_num [calculate_shipping_total, shippingStep, round2, List.foldlM,
      Bind.bind, Except.bind, Pure.pure, Except.pure])
    (by intro t ht
        rw [List.mem_singleton] at ht
        subst ht
        norm_num)
    (by norm_num)

/-! ### C2 and C6: `get_tax_account_head` -/

/-- C2, counterexample: with charge_type "sales_tax", an order whose shipping
address is missing, and nothing configured, the resolved account is the
hard-coded configuration default "2310 - State Taxes WA - SV", not the
"other regions" account "2350 - Other States - SV" that the claim promises
for a missing shipping address. -/
theorem get_tax_account_head_missing_address_cex :
    get_tax_account_head emptyTaxConfig ⟨some "State Tax"⟩ (some .sales_tax)
      (some ⟨none⟩) = .ok "2310 - State Taxes WA - SV" ∧
    ("2310 - State Taxes WA - SV" : String) ≠ "2350 - Other States - SV" :=
  ⟨rfl, by decide⟩

/-- C2, amended: for charge_type "sales_tax" with a present shipping
address, the WA / FL / other-region / missing-or-empty-region branches
return the four fixed region accounts as claimed; but when the shipping
address is missing the resolution falls through to the configuration
chain (`resolve_tax_account`) instead of returning the "other regions"
account, and when the whole order object is absent the "other regions"
account is returned. -/
theorem get_tax_account_head_region_spec :
    (∀ cfg, get_tax_account_head cfg ⟨some "Washington State Tax"⟩
      (some .sales_tax) (some ⟨some ⟨some "WA"⟩⟩) = .ok "2310 - State Taxes WA - SV")
    ∧ (∀ cfg title, title ≠ some "Washington State Tax" →
      get_tax_account_head cfg ⟨title⟩ (some .sales_tax) (some ⟨some ⟨some "WA"⟩⟩) =
        .ok "2320 - Local Taxes WA - SV")
    ∧ (∀ cfg, get_tax_account_head cfg ⟨some "Florida State Tax"⟩
      (some .sales_tax) (some ⟨some ⟨some "FL"⟩⟩) = .ok "2330 - State Taxes FL - SV")
    ∧ (∀ cfg title, title ≠ some "Florida State Tax" →
      get_tax_account_head cfg ⟨title⟩ (some .sales_tax) (some ⟨some ⟨some "FL"⟩⟩) =
        .ok "2340 - Local Taxes FL - SV")
    ∧ (∀ cfg title state, state ≠ "" → state ≠ "WA" → state ≠ "FL" →
      get_tax_account_head cfg ⟨title⟩ (some .sales_tax) (some ⟨some ⟨some state⟩⟩) =
        .ok "2350 - Other States - SV")
    ∧ (∀ cfg title,
      get_tax_account_head cfg ⟨title⟩ (some .sales_tax) (some ⟨some ⟨none⟩⟩) =
        .ok "2350 - Other States - SV")
    ∧ (∀ cfg title,
      get_tax_account_head cfg ⟨title⟩ (some .sales_tax) (some ⟨some ⟨some ""⟩⟩) =
        .ok "2350 - Other States - SV")
    ∧ (∀ cfg title,
      get_tax_account_head cfg ⟨title⟩ (some .sales_tax) (some ⟨none⟩) =
        resolve_tax_account cfg (pyStr title) (some .sales_tax))
    ∧ (∀ cfg title,
      get_tax_account_head cfg ⟨title⟩ (some .sales_tax) none =
        .ok "2350 - Other States - SV") := by
  refine ⟨fun cfg => rfl, ?_, fun cfg => rfl, ?_, ?_, fun cfg title => rfl,
    fun cfg title => rfl, fun cfg title => rfl, fun cfg title => rfl⟩
  · intro cfg title h
    simp [get_tax_account_head, truthyS, pyStr, h]
  · intro cfg title h
    simp [get_tax_account_head, truthyS, pyStr, h]
  · intro cfg title state h0 hwa hfl
    simp [get_tax_account_head, truthyS, pyStr, h0, hwa, hfl]

/-- Witness for C2's amended theorem: a non-"Washington State Tax" title in
region "WA" resolves to the local-taxes account, and region "TX" resolves
to the other-states account. -/
theorem get_tax_account_head_region_spec_witness :
    get_tax_account_head emptyTaxConfig ⟨some "Local Tax"⟩ (some .sales_tax)
      (some ⟨some ⟨some "WA"⟩⟩) = .ok "2320 - Local Taxes WA - SV" ∧
    get_tax_account_head emptyTaxConfig ⟨some "Texas Tax"⟩ (some .sales_tax)
      (some ⟨some ⟨some "TX"⟩⟩) = .ok "2350 - Other States - SV" :=
  ⟨get_tax_account_head_region_spec.2.1 emptyTaxConfig (some "Local Tax") (by decide),
   get_tax_account_head_region_spec.2.2.2.2.1 emptyTaxConfig (some "Texas Tax") "TX"
     (by decide) (by decide) (by decide)⟩

/-- C6, counterexample: with no per-title mapping and no default accounts
configured — the situation in which the claim says the call must fail with
a ConfigurationError — the call still succeeds, returning the hard-coded
account: the `frappe.throw` branch is unreachable because the hard-coded
fallback is always non-empty. -/
theorem resolve_tax_account_no_config_cex :
    resolve_tax_account emptyTaxConfig "Unmapped Tax" (some .sales_tax) =
      .ok "2310 - State Taxes WA - SV" := rfl

/-- C6, amended: the fall-through resolution order is (a) the per-deployment
title mapping, (b) the configured default account keyed by charge_type,
(c) the hard-coded account "2310 - State Taxes WA - SV"; and because the
hard-coded fallback is always truthy, an account is always determined, so
the call never fails (the ConfigurationError branch is dead code). -/
theorem resolve_tax_account_spec :
    (∀ cfg title ct a, cfg.tax_account_for title = some a → a ≠ "" →
      resolve_tax_account cfg title ct = .ok a)
    ∧ (∀ cfg title (ct : ChargeType) a, ¬ truthyS (cfg.tax_account_for title) →
      cfg.defaultFor ct = some a → a ≠ "" →
      resolve_tax_account cfg title (some ct) = .ok a)
    ∧ (∀ cfg title (ct : ChargeType), ¬ truthyS (cfg.tax_account_for title) →
      ¬ truthyS (cfg.defaultFor ct) →
      resolve_tax_account cfg title (some ct) = .ok "2310 - State Taxes WA - SV")
    ∧ (∀ cfg title, ¬ truthyS (cfg.tax_account_for title) →
      resolve_tax_account cfg title none = .ok "2310 - State Taxes WA - SV")
    ∧ (∀ cfg title ct, ∃ a, resolve_tax_account cfg title ct = .ok a) := by
  have h2310 : truthyS (some "2310 - State Taxes WA - SV") = true := by
    simp [truthyS]
  refine ⟨?_, ?_, ?_, ?_, ?_⟩
  · intro cfg title ct a h ha
    have hta : truthyS (some a) = true := by simpa [truthyS] using ha
    simp [resolve_tax_account, h, hta]
  · intro cfg title ct a hmiss h ha
    have h1 : truthyS (cfg.tax_account_for title) = false := by simpa using hmiss
    have hta : truthyS (some a) = true := by simpa [truthyS] using ha
    simp [resolve_tax_account, h1, h, hta]
  · intro cfg title ct hmiss hdmiss
    have h1 : truthyS (cfg.tax_account_for title) = false := by simpa using hmiss
    have h2 : truthyS (cfg.defaultFor ct) = false := by simpa using hdmiss
    simp [resolve_tax_account, h1, h2, h2310]
  · intro cfg title hmiss
    have h1 : truthyS (cfg.tax_account_for title) = false := by simpa using hmiss
    simp [resolve_tax_account, h1, h2310]
  · intro cfg title ct
    by_cases h1 : truthyS (cfg.tax_account_for title)
    · cases hcfg : cfg.tax_account_for title with
      | none => rw [hcfg] at h1; exact absurd h1 (by simp [truthyS])
      | some a =>
        rw [hcfg] at h1
        exact ⟨a, by simp [resolve_tax_account, hcfg, h1]⟩
    · have h1' : truthyS (cfg.tax_account_for title) = false := by simpa using h1
      cases ct with
      | none =>
        exact ⟨"2310 - State Taxes WA - SV", by simp [resolve_tax_account, h1', h2310]⟩
      | some c =>
        by_cases h2 : truthyS (cfg.defaultFor c)
        · cases hcfg : cfg.defaultFor c with
          | none => rw [hcfg] at h2; exact absurd h2 (by simp [truthyS])
          | some a =>
            rw [hcfg] at h2
            exact ⟨a, by simp [resolve_tax_account, h1', hcfg, h2]⟩
        · have h2' : truthyS (cfg.defaultFor c) = false := by simpa using h2
          exact ⟨"2310 - State Taxes WA - SV",
            by simp [resolve_tax_account, h1', h2', h2310]⟩

/-- Witness for C6's amended theorem: a configured mapping wins, a
configured default is used when the mapping is empty, and with nothing
configured the hard-coded account is returned and the call succeeds. -/
theorem resolve_tax_account_spec_witness :
    resolve_tax_account
      { tax_account_for := fun t => if t = "GST" then some "A1" else none
        default_sales_tax_account := some "D1"
        default_shipping_charges_account := none } "GST" (some .sales_tax) = .ok "A1" ∧
    resolve_tax_account
      { tax_account_for := fun _ => none
        default_sales_tax_account := some "D1"
        default_shipping_charges_account := none } "GST" (some .sales_tax) = .ok "D1" ∧
    resolve_tax_account emptyTaxConfig "GST" (some .shipping) =
      .ok "2310 - State Taxes WA - SV" ∧
    (∃ a, resolve_tax_account emptyTaxConfig "GST" none = .ok a) :=
  ⟨resolve_tax_account_spec.1 _ "GST" (some .sales_tax) "A1" (by simp) (by decide),
   resolve_tax_account_spec.2.1 _ "GST" .sales_tax "D1" (by simp [truthyS]) rfl (by decide),
   resolve_tax_account_spec.2.2.1 emptyTaxConfig "GST" .shipping
     (by simp [truthyS, emptyTaxConfig]) (by simp [truthyS, emptyTaxConfig, TaxConfig.defaultFor]),
   resolve_tax_account_spec.2.2.2.2 emptyTaxConfig "GST" none⟩

/-! ### C7: bundle splitting in `create_sales_order` -/

theorem splitGo_length (gp : String → Option ℚ) (db : String → Bool)
    (ws : String) (ib : Bool) :
    ∀ (skus : List String) (carried : ShopifyItem),
    (splitGo gp db ws ib skus carried).length = skus.length := by
  intro skus
  induction skus with
  | nil => intro c; rfl
  | cons a t ih => intro c; simp [splitGo, ih]

/-- C7: the bundle-splitting step yields one sub-item per "+"-separated
component of the sku; sku "A+B" yields exactly the two sub-items "A" and
"B", and a sku without "+" (such as "A") yields exactly one sub-item with
its sku and price unchanged. -/
theorem splitLineItem_spec :
    (∀ (gp : String → Option ℚ) (db : String → Bool) (li : ShopifyItem),
      (splitLineItem gp db li).length = (pySplit '+' li.sku).length)
    ∧ (∀ (gp : String → Option ℚ) (db : String → Bool) (li : ShopifyItem),
      li.sku = "A+B" →
      (splitLineItem gp db li).map (fun it => it.sku) = ["A", "B"])
    ∧ (∀ (gp : String → Option ℚ) (db : String → Bool) (li : ShopifyItem) (p : ℚ),
      li.sku = "A" → li.price = some p →
      splitLineItem gp db li =
        [{ li with
           sku := "A"
           product_exists := db "A"
           price := some p
           shopify_price := some p }]) := by
  refine ⟨?_, ?_, ?_⟩
  · intro gp db li
    exact splitGo_length gp db li.sku _ (pySplit '+' li.sku) li
  · intro gp db li h
    have hsplit : pySplit (Char.ofNat 43) "A+B" = ["A", "B"] := rfl
    have hA : pyStrip "A" = "A" := rfl
    have hB : pyStrip "B" = "B" := rfl
    simp only [splitLineItem, h, hsplit]
    simp [splitGo, hA, hB]
  · intro gp db li p hsku hp
    have hsplit : pySplit (Char.ofNat 43) "A" = ["A"] := rfl
    have hA : pyStrip "A" = "A" := rfl
    simp only [splitLineItem, hsku, hsplit]
    simp [splitGo, hA, hp]

/-- Witness for C7: a concrete line item with sku "A+B" splits into sub-items
"A" and "B", and one with sku "A" and price 9 is passed through unchanged. -/
theorem splitLineItem_spec_witness :
    ((splitLineItem (fun _ => some 3) (fun _ => true)
        ⟨"A+B", some 9, some "orig", false, none, some 1, [], []⟩).map
      (fun it => it.sku) = ["A", "B"]) ∧
    splitLineItem (fun _ => some 3) (fun _ => true)
        ⟨"A", some 9, some "orig", false, none, some 1, [], []⟩ =
      [{ (⟨"A", some 9, some "orig", false, none, some 1, [], []⟩ : ShopifyItem) with
         sku := "A"
         product_exists := true
         price := some 9
         shopify_price := some 9 }] :=
  ⟨splitLineItem_spec.2.1 (fun _ => some 3) (fun _ => true)
      ⟨"A+B", some 9, some "orig", false, none, some 1, [], []⟩ rfl,
   splitLineItem_spec.2.2 (fun _ => some 3) (fun _ => true)
      ⟨"A", some 9, some "orig", false, none, some 1, [], []⟩ 9 rfl rfl⟩

/-! ### C8: `get_next_working_day` -/

theorem gnwd_from_base (holiday : Int → Bool) (hour : Nat) (fuel : Nat)
    (date : Int) (dcd : Bool) :
    get_next_working_day holiday hour fuel date dcd =
      get_next_working_day holiday hour fuel (baseDate hour dcd date) true := by
  have hb : baseDate hour true (baseDate hour dcd date) = baseDate hour dcd date := by
    simp [baseDate]
  cases fuel with
  | zero => simp only [get_next_working_day, hb]
  | succ n => simp only [get_next_working_day, hb]

theorem gnwd_of_not_holiday (holiday : Int → Bool) (hour : Nat) (fuel : Nat)
    (d : Int) (h : holiday d = false) :
    get_next_working_day holiday hour fuel d true = some d := by
  have hb : baseDate hour true d = d := by simp [baseDate]
  cases fuel with
  | zero => simp [get_next_working_day, hb, h]
  | succ n => simp [get_next_working_day, hb, h]

theorem gnwd_step_holiday (holiday : Int → Bool) (hour : Nat) (n : Nat)
    (d : Int) (h : holiday d = true) :
    get_next_working_day holiday hour (n + 1) d true =
      get_next_working_day holiday hour n (d + 1) true := by
  have hb : baseDate hour true d = d := by simp [baseDate]
  simp [get_next_working_day, hb, h]

theorem gnwd_skips_holidays (holiday : Int → Bool) (hour : Nat) :
    ∀ (k fuel : Nat) (d : Int), k ≤ fuel → holiday (d + (k : ℤ)) = false →
    ∃ j : Nat, j ≤ k ∧
      get_next_working_day holiday hour fuel d true = some (d + (j : ℤ)) ∧
      holiday (d + (j : ℤ)) = false ∧
      ∀ i : Nat, i < j → holiday (d + (i : ℤ)) = true := by
  intro k
  induction k with
  | zero =>
    intro fuel d hk h0
    have h0' : holiday d = false := by simpa using h0
    exact ⟨0, le_refl 0, by simpa using gnwd_of_not_holiday holiday hour fuel d h0',
      by simpa using h0', fun i hi => absurd hi (Nat.not_lt_zero i)⟩
  | succ k ih =>
    intro fuel d hk hk1
    cases hhd : holiday d with
    | false =>
      exact ⟨0, Nat.zero_le _, by simpa using gnwd_of_not_holiday holiday hour fuel d hhd,
        by simpa using hhd, fun i hi => absurd hi (Nat.not_lt_zero i)⟩
    | true =>
      cases fuel with
      | zero => exact absurd hk (by omega)
      | succ n =>
        have hk' : k ≤ n := by omega
        have hh : holiday (d + 1 + (k : ℤ)) = false := by
          have hcast : d + 1 + (k : ℤ) = d + ((k + 1 : ℕ) : ℤ) := by push_cast; ring
          rw [hcast]
          exact hk1
        obtain ⟨j, hjk, hres, hnh, hall⟩ := ih n (d + 1) hk' hh
        refine ⟨j + 1, by omega, ?_, ?_, ?_⟩
        · rw [gnwd_step_holiday holiday hour n d hhd, hres]
          congr 1
          push_cast
          ring
        · have hcast : d + ((j + 1 : ℕ) : ℤ) = d + 1 + (j : ℤ) := by push_cast; ring
          rw [hcast]
          exact hnh
        · intro i hi
          cases i with
          | zero => simpa using hhd
          | succ i' =>
            have hcast : d + ((i' + 1 : ℕ) : ℤ) = d + 1 + (i' : ℤ) := by push_cast; ring
            rw [hcast]
            exact hall i' (by omega)

/-- C8: the base date is advanced by one day exactly when the hour is ≥ 14
and `dont_change_date` is false, and from the base date the function skips
day by day past every holiday, returning the first non-holiday date; in
particular, with Saturday (day 6) and Sunday (day 7) both holidays, a
before-cutoff call on Saturday returns Monday (day 8), and after the cutoff
the base date is tomorrow, not today. -/
theorem get_next_working_day_spec :
    (∀ (holiday : Int → Bool) (hour : Nat) (dcd : Bool) (d0 : Int) (fuel k : Nat),
      k ≤ fuel → holiday (baseDate hour dcd d0 + (k : ℤ)) = false →
      ∃ j : Nat, j ≤ k ∧
        get_next_working_day holiday hour fuel d0 dcd =
          some (baseDate hour dcd d0 + (j : ℤ)) ∧
        holiday (baseDate hour dcd d0 + (j : ℤ)) = false ∧
        ∀ i : Nat, i < j → holiday (baseDate hour dcd d0 + (i : ℤ)) = true)
    ∧ get_next_working_day (fun d => d == 6 || d == 7) 9 30 6 false = some 8
    ∧ (∀ (hour : Nat) (d0 : Int), 14 ≤ hour → baseDate hour false d0 = d0 + 1)
    ∧ (∀ (hour : Nat) (d0 : Int), hour < 14 → baseDate hour false d0 = d0) := by
  refine ⟨?_, rfl, ?_, ?_⟩
  · intro holiday hour dcd d0 fuel k hk h
    rw [gnwd_from_base holiday hour fuel d0 dcd]
    exact gnwd_skips_holidays holiday hour k fuel (baseDate hour dcd d0) hk h
  · intro hour d0 h
    simp [baseDate, is_more_than_14, h]
  · intro hour d0 h
    have h' : ¬ 14 ≤ hour := by omega
    simp [baseDate, is_more_than_14, h']

/-- Witness for C8: after the 14:00 cutoff (hour 15) on Friday (day 5) with
advancement allowed, the base date is Saturday (day 6); with Saturday and
Sunday holidays the result is Monday (day 8 = base + 2). -/
theorem get_next_working_day_spec_witness :
    ∃ j : Nat, j ≤ 3 ∧
      get_next_working_day (fun d => d == 6 || d == 7) 15 30 5 false =
        some (baseDate 15 false 5 + (j : ℤ)) ∧
      (fun d : Int => d == 6 || d == 7) (baseDate 15 false 5 + (j : ℤ)) = false ∧
      ∀ i : Nat, i < j →
        (fun d : Int => d == 6 || d == 7) (baseDate 15 false 5 + (i : ℤ)) = true :=
  get_next_working_day_spec.1 (fun d => d == 6 || d == 7) 15 false 5 30 3
    (by decide) (by decide)

/-! ### C3: the all-or-nothing policy of `get_order_items` -/

/-- C3, code behaviour at the failing input: with an existing product "A"
followed by a missing product "B", `get_order_items` returns the one-item
list for "A" — not the empty list the all-or-nothing policy promises —
while the same two items in the opposite order do yield the empty list
(the `items = []` reset only runs on a later existing item). -/
theorem get_order_items_missing_last_partial :
    get_order_items (fun it => it.sku) (fun c => (some c, c))
      [⟨"A", some 5, some "An A", true, some 5, some 1, [], []⟩,
       ⟨"B", some 7, some "A B", false, some 7, some 1, [], []⟩] =
      .ok [⟨"A", "A", "A", some 5, some 5, some 5, some 1, 0⟩] ∧
    get_order_items (fun it => it.sku) (fun c => (some c, c))
      [⟨"B", some 7, some "A B", false, some 7, some 1, [], []⟩,
       ⟨"A", some 5, some "An A", true, some 5, some 1, [], []⟩] = .ok [] := by
  constructor
  · norm_num [get_order_items, get_order_items_go, buildErpItem, get_rate,
      get_total_discount, cint, pyInt, flt, truthyS, Bind.bind, Except.bind,
      Pure.pure, Except.pure, Except.bind]
  · rfl

/-! ### C5: divisions by the item quantity -/

/-- C5, counterexample: a line item with quantity 0 and a discount
allocation makes `get_order_items` fail with a division-by-zero error —
the division is not guarded. -/
theorem get_order_items_qty_zero_cex :
    get_order_items (fun it => it.sku) (fun c => (some c, c))
      [⟨"A", some 5, some "An A", true, some 5, some 0, [some 1], []⟩] =
      .error "ZeroDivisionError: division by zero" := rfl

theorem cint_eq_floor (x : Option ℚ) (q : ℚ) (hx : x = some q) (h0 : 0 ≤ q) :
    cint x = Int.floor q := by
  rw [hx]
  simp [cint, flt, pyInt, h0]

theorem buildErpItem_ok (cat : String → Option String × String) (code : String)
    (it : ShopifyItem) (q : ℚ) (hq : it.quantity = some q) (h1 : 1 ≤ q)
    (hsp : it.discount_allocations ≠ [] → it.shopify_price.isSome = true) :
    ∃ r, buildErpItem cat code it = .ok r := by
  have hqz : ¬ (q = 0) := fun h => absurd h1 (by rw [h]; norm_num)
  have hfl : 1 ≤ Int.floor q := Int.le_floor.mpr (by exact_mod_cast h1)
  have hcint : cint it.quantity = Int.floor q :=
    cint_eq_floor _ q hq (le_trans zero_le_one h1)
  have hne : ¬ (cint it.quantity = 0) := by rw [hcint]; omega
  have hne' : ¬ (cint (some q) = 0) := by rw [hq] at hne; exact hne
  have hok : (buildErpItem cat code it).isOk = true := by
    rcases hda : it.discount_allocations with _ | ⟨d0, ds⟩
    · simp [buildErpItem, hda, hne, Bind.bind, Except.bind, Pure.pure, Except.pure,
        Except.isOk, Except.toBool]
    · obtain ⟨sp, hsp'⟩ := Option.isSome_iff_exists.mp (hsp (by rw [hda]; simp))
      simp [buildErpItem, get_rate, hda, hq, hsp', hqz, hne, hne',
        Bind.bind, Except.bind, Pure.pure, Except.pure, Except.isOk, Except.toBool]
  cases hres : buildErpItem cat code it with
  | ok r => exact ⟨r, rfl⟩
  | error e => rw [hres] at hok; simp [Except.isOk, Except.toBool] at hok

theorem get_order_items_go_ok (ic : ShopifyItem → String)
    (cat : String → Option String × String) :
    ∀ (its : List ShopifyItem), ∀ (flag : Bool) (acc : List ErpItem),
    (∀ it ∈ its, it.product_exists = true →
      (∃ q : ℚ, it.quantity = some q ∧ 1 ≤ q) ∧
      (it.discount_allocations ≠ [] → it.shopify_price.isSome = true)) →
    (get_order_items_go ic cat its flag acc).isOk = true := by
  intro its
  induction its with
  | nil => intro flag acc _; rfl
  | cons it rest ih =>
    intro flag acc h
    have hrest : ∀ it' ∈ rest, it'.product_exists = true →
        (∃ q : ℚ, it'.quantity = some q ∧ 1 ≤ q) ∧
        (it'.discount_allocations ≠ [] → it'.shopify_price.isSome = true) :=
      fun it' h' => h it' (List.mem_cons_of_mem it h')
    by_cases hpe : it.product_exists = true
    · obtain ⟨⟨q, hq, h1⟩, hsp⟩ := h it (List.mem_cons_self it rest) hpe
      obtain ⟨r, hr⟩ := buildErpItem_ok cat (ic it) it q hq h1 hsp
      cases flag with
      | true =>
        have hstep : get_order_items_go ic cat (it :: rest) true acc =
            get_order_items_go ic cat rest true (acc ++ [r]) := by
          simp [get_order_items_go, hpe, hr, Except.bind]
        rw [hstep]
        exact ih true (acc ++ [r]) hrest
      | false =>
        have hstep : get_order_items_go ic cat (it :: rest) false acc =
            get_order_items_go ic cat rest false [] := by
          simp [get_order_items_go, hpe]
        rw [hstep]
        exact ih false [] hrest
    · have hpe' : it.product_exists = false := by simpa using hpe
      have hstep : get_order_items_go ic cat (it :: rest) flag acc =
          get_order_items_go ic cat rest false acc := by
        simp [get_order_items_go, hpe']
      rw [hstep]
      exact ih false acc hrest

/-- C5, amended: the per-unit prorations in `get_order_items` and
`_get_item_price` divide by the quantity with no guard in the code; the
divisions are safe exactly under the precondition quantity ≥ 1: every
line item of an order satisfying it makes `get_order_items` succeed, and
`_get_item_price` succeeds on such an item, whereas quantity 0 raises a
division-by-zero error (see the counterexample). -/
theorem division_guard_requires_positive_qty :
    (∀ (ic : ShopifyItem → String) (cat : String → Option String × String)
       (its : List ShopifyItem),
      (∀ it ∈ its, it.product_exists = true →
        (∃ q : ℚ, it.quantity = some q ∧ 1 ≤ q) ∧
        (it.discount_allocations ≠ [] → it.shopify_price.isSome = true)) →
      (get_order_items ic cat its).isOk = true)
    ∧ (∀ (it : ShopifyItem) (ti : Bool) (q : ℚ), it.quantity = some q → 1 ≤ q →
      (get_item_price it ti).isOk = true) := by
  constructor
  · intro ic cat its h
    exact get_order_items_go_ok ic cat its true [] h
  · intro it ti q hq h1
    have hfl : 1 ≤ Int.floor q := Int.le_floor.mpr (by exact_mod_cast h1)
    have hcint : cint it.quantity = Int.floor q :=
      cint_eq_floor _ q hq (le_trans zero_le_one h1)
    have hne : ¬ (cint it.quantity = 0) := by rw [hcint]; omega
    cases ti with
    | true => simp [get_item_price, hne, Except.isOk, Except.toBool]
    | false => simp [get_item_price, hne, Except.isOk, Except.toBool]

/-- Witness for C5's amended theorem: a discounted line item with quantity 2
is processed without a division error, both by the order-items builder and
by `_get_item_price`. -/
theorem division_guard_requires_positive_qty_witness :
    (get_order_items (fun it => it.sku) (fun c => (some c, c))
      [⟨"A", some 5, some "An A", true, some 5, some 2, [some 1], []⟩]).isOk = true ∧
    (get_item_price ⟨"A", some 5, some "An A", true, some 5, some 2, [some 1], []⟩
      false).isOk = true :=
  ⟨division_guard_requires_positive_qty.1 (fun it => it.sku) (fun c => (some c, c))
      [⟨"A", some 5, some "An A", true, some 5, some 2, [some 1], []⟩]
      (by
        intro it hit hpe
        rw [List.mem_singleton] at hit
        subst hit
        exact ⟨⟨2, rfl, by norm_num⟩, fun _ => rfl⟩),
   division_guard_requires_positive_qty.2
     ⟨"A", some 5, some "An A", true, some 5, some 2, [some 1], []⟩ false 2 rfl
     (by norm_num)⟩

end ShopifyOrder
